import Mathlib

/-!
Shallow embedding of the asr-engine repository's model lifecycle manager
(src/model_manager.py) and LLM configuration store (src/llm_client.py).

Python dictionaries keyed by model name are embedded as functions
`String → _`; the on-disk artifact cache is part of the explicit state
(`disk`); the asynchronous download is split into the synchronous
accept phase (run under the manager's lock), the background worker, and
the completion phase, mirroring the structure of `download_model`.
The outcome of the external fetch / load (`whisper.load_model`) is an
explicit boolean parameter, and a freshly constructed model handle is
identified by a `Nat` so that handle identity can be stated.
-/

namespace ASREngine

/-- ModelStatus enum from model_manager.py. -/
inductive ModelStatus where
  | not_downloaded
  | downloading
  | ready
  | loading
  | error
  deriving DecidableEq, Repr

/-- String value of a status, as serialized by `ModelStatus(...).value`. -/
def ModelStatus.value : ModelStatus → String
  | .not_downloaded => "not_downloaded"
  | .downloading => "downloading"
  | .ready => "ready"
  | .loading => "loading"
  | .error => "error"

/-- One entry of `ModelManager.AVAILABLE_MODELS`. -/
structure CatalogEntry where
  name : String
  size : String
  description : String

/-- The static catalog `AVAILABLE_MODELS` of model_manager.py. -/
def AVAILABLE_MODELS : List CatalogEntry :=
  [⟨"tiny", "39 MB", "最小模型，速度最快但精度较低，适合测试"⟩,
   ⟨"base", "74 MB", "基础模型，平衡速度和精度"⟩,
   ⟨"small", "244 MB", "小型模型，较好的识别精度"⟩,
   ⟨"medium", "769 MB", "中型模型，高精度识别（推荐）"⟩,
   ⟨"large", "1550 MB", "大型模型，最高精度但速度较慢"⟩]

/-- Membership test `model_name in AVAILABLE_MODELS` (dict key lookup). -/
def inCatalog (n : String) : Bool :=
  AVAILABLE_MODELS.any (fun e => e.name == n)

/-- State of a `ModelManager` instance.  `disk` is the artifact cache
(`check_model_downloaded`); `current_model` is the loaded whisper handle,
identified by a numeric id (`none` = no handle); `model_status` embeds
the `_model_status` dict (`none` = key absent); `download_progress`
embeds `_download_progress` (percent). -/
structure ManagerState where
  disk : String → Bool
  current_model : Option Nat
  current_model_name : Option String
  model_status : String → Option ModelStatus
  download_progress : String → Nat

/-- Write one key of the `_model_status` dict. -/
def setStatus (f : String → Option ModelStatus) (n : String) (v : ModelStatus) :
    String → Option ModelStatus :=
  fun x => if x = n then some v else f x

/-- Write one key of the `_download_progress` dict. -/
def setProg (f : String → Nat) (n : String) (v : Nat) : String → Nat :=
  fun x => if x = n then v else f x

/-- Record that the artifact for `n` is (or is not) cached on disk. -/
def setDisk (f : String → Bool) (n : String) (v : Bool) : String → Bool :=
  fun x => if x = n then v else f x

/-- `_init_status`: every catalog entry starts as NOT_DOWNLOADED with
progress 0 (the Python if/else assigns NOT_DOWNLOADED in both branches);
no model is loaded. -/
def init_status (disk : String → Bool) : ManagerState :=
  { disk := disk
    current_model := none
    current_model_name := none
    model_status := fun n => if inCatalog n then some ModelStatus.not_downloaded else none
    download_progress := fun _ => 0 }

/-- `check_model_downloaded`: does the artifact exist on disk. -/
def check_model_downloaded (m : ManagerState) (n : String) : Bool :=
  m.disk n

/-- `get_model_status`: unknown identifiers report ERROR; an in-memory
DOWNLOADING/LOADING takes priority; otherwise disk evidence decides,
with READY exactly for the currently active model. -/
def get_model_status (m : ManagerState) (n : String) : ModelStatus :=
  if inCatalog n then
    match m.model_status n with
    | some ModelStatus.downloading => ModelStatus.downloading
    | some ModelStatus.loading => ModelStatus.loading
    | _ =>
      if m.disk n then
        if m.current_model_name = some n then ModelStatus.ready
        else ModelStatus.not_downloaded
      else ModelStatus.not_downloaded
  else ModelStatus.error

/-- `get_current_model`: identifier of the loaded model, if any. -/
def get_current_model (m : ManagerState) : Option String :=
  m.current_model_name

/-- The `ModelInfo` dataclass serialized by `get_all_models`. -/
structure ModelInfo where
  name : String
  size : String
  description : String
  status : String
  download_progress : Nat
  error_message : Option String

/-- `get_all_models`: snapshot over the catalog.  The `ModelInfo`
constructor call in the source never passes `error_message`, so the
dataclass default `None` is used for every entry. -/
def get_all_models (m : ManagerState) : List ModelInfo :=
  AVAILABLE_MODELS.map (fun e =>
    { name := e.name
      size := e.size
      description := e.description
      status := (get_model_status m e.name).value
      download_progress := m.download_progress e.name
      error_message := none })

/-- Result of the synchronous prefix of `download_model`: either an
early return with a boolean, or acceptance of the download. -/
inductive StartResult where
  | early (r : Bool)
  | accepted
  deriving DecidableEq, Repr

/-- Synchronous prefix of `download_model` (lines 145-159): unknown
identifier returns False; artifact already on disk returns True; then,
in one lock-protected step, a DOWNLOADING entry is rejected with False
and otherwise the entry is flagged DOWNLOADING with progress 0. -/
def download_start (m : ManagerState) (n : String) : StartResult × ManagerState :=
  if inCatalog n then
    if m.disk n then (StartResult.early true, m)
    else if m.model_status n = some ModelStatus.downloading then (StartResult.early false, m)
    else (StartResult.accepted,
      { m with
        model_status := setStatus m.model_status n ModelStatus.downloading
        download_progress := setProg m.download_progress n 0 })
  else (StartResult.early false, m)

/-- Background worker `download_with_progress`: the heartbeat loop ends
with progress 100, then the fetch runs; on success the artifact is
cached and, if no model is currently loaded, the fresh handle `h` is
adopted as the current model; on failure (exception) it returns False
with no disk write. -/
def download_work (m : ManagerState) (n : String) (fetchOk : Bool) (h : Nat) :
    Bool × ManagerState :=
  let m1 := { m with download_progress := setProg m.download_progress n 100 }
  if fetchOk then
    let m2 := { m1 with disk := setDisk m1.disk n true }
    if m2.current_model = none then
      (true, { m2 with current_model := some h, current_model_name := some n })
    else (true, m2)
  else (false, m1)

/-- Completion phase of `download_model` (lines 205-212): on success the
status becomes NOT_DOWNLOADED (downloaded but not loaded) with progress
100, on failure ERROR with progress 0. -/
def download_finish (m : ManagerState) (n : String) (r : Bool) : ManagerState :=
  { m with
    model_status := setStatus m.model_status n
      (if r then ModelStatus.not_downloaded else ModelStatus.error)
    download_progress := setProg m.download_progress n (if r then 100 else 0) }

/-- `download_model`, sequential composition of the three phases. -/
def download_model (m : ManagerState) (n : String) (fetchOk : Bool) (h : Nat) :
    Bool × ManagerState :=
  match download_start m n with
  | (StartResult.early r, m1) => (r, m1)
  | (StartResult.accepted, m1) =>
    let p := download_work m1 n fetchOk h
    (p.1, download_finish p.2 n p.1)

/-- `load_model`: unknown identifier returns False; loading the already
active model is a no-op returning True; a missing artifact returns
False; otherwise the entry is flagged LOADING, the current handle (if
any) is dropped, and the new handle `hdl` is constructed (`loadOk`
tells whether `whisper.load_model` succeeds); on success the handle is
installed and the status becomes READY, on failure the status becomes
ERROR (the dropped handle is not restored and the name is not cleared). -/
def load_model (m : ManagerState) (n : String) (loadOk : Bool) (hdl : Nat) :
    Bool × ManagerState :=
  if inCatalog n then
    if m.current_model_name = some n ∧ m.current_model ≠ none then (true, m)
    else if m.disk n then
      let m1 := { m with model_status := setStatus m.model_status n ModelStatus.loading }
      let m2 := if m1.current_model ≠ none then { m1 with current_model := none } else m1
      if loadOk then
        (true, { m2 with
          current_model := some hdl
          current_model_name := some n
          model_status := setStatus m2.model_status n ModelStatus.ready })
      else
        (false, { m2 with model_status := setStatus m2.model_status n ModelStatus.error })
    else (false, m)
  else (false, m)

/-- `unload_model`: if a handle is held, drop it, clear the current
name, and (when the old name is truthy, i.e. a non-empty string) reset
that entry's status to NOT_DOWNLOADED; otherwise do nothing. -/
def unload_model (m : ManagerState) : ManagerState :=
  if m.current_model ≠ none then
    let m1 := { m with current_model := none, current_model_name := none }
    match m.current_model_name with
    | some old =>
      if old ≠ "" then
        { m1 with model_status := setStatus m1.model_status old ModelStatus.not_downloaded }
      else m1
    | none => m1
  else m

/-- Demo state: "tiny" downloaded and loaded (handle 1), everything
else fresh. -/
def demoReady : ManagerState :=
  { disk := fun n => n == "tiny"
    current_model := some 1
    current_model_name := some "tiny"
    model_status := fun n =>
      if n == "tiny" then some ModelStatus.ready
      else if inCatalog n then some ModelStatus.not_downloaded else none
    download_progress := fun _ => 0 }

/-- Demo state: "tiny" loaded (handle 7) and "medium" downloaded but
not loaded. -/
def demoTwoDisks : ManagerState :=
  { disk := fun n => n == "tiny" || n == "medium"
    current_model := some 7
    current_model_name := some "tiny"
    model_status := fun n =>
      if n == "tiny" then some ModelStatus.ready
      else if inCatalog n then some ModelStatus.not_downloaded else none
    download_progress := fun _ => 0 }

/-- Demo state: a download of "base" is in flight. -/
def demoDownloading : ManagerState :=
  { disk := fun n => n == "tiny"
    current_model := some 1
    current_model_name := some "tiny"
    model_status := fun n =>
      if n == "base" then some ModelStatus.downloading
      else if n == "tiny" then some ModelStatus.ready
      else if inCatalog n then some ModelStatus.not_downloaded else none
    download_progress := fun _ => 0 }

/-- The `LLMConfig` dataclass of llm_client.py. -/
structure LLMConfig where
  id : String
  name : String
  api_key : String
  base_url : String
  model : String
  is_default : Bool
  deriving DecidableEq, Repr

/-- One step of the loops `for c in configs.values(): c.is_default = False`. -/
def clearDefault (c : LLMConfig) : LLMConfig :=
  { c with is_default := false }

/-- The update dictionary accepted by `ConfigManager.update_config`, as
built by the API layer from `LLMConfigUpdateRequest` (absent keys are
`none`; there is no `id` key). -/
structure LLMConfigUpdates where
  name : Option String := none
  api_key : Option String := none
  base_url : Option String := none
  model : Option String := none
  is_default : Option Bool := none
  deriving Repr

/-- The `setattr` loop of `update_config`: each present key overwrites
the field, except that an `api_key` containing a `*` (a masked key
echoed back by the UI) is skipped. -/
def applyUpdates (c : LLMConfig) (u : LLMConfigUpdates) : LLMConfig :=
  { c with
    name := u.name.getD c.name
    api_key :=
      match u.api_key with
      | some v => if v.contains '*' then c.api_key else v
      | none => c.api_key
    base_url := u.base_url.getD c.base_url
    model := u.model.getD c.model
    is_default := u.is_default.getD c.is_default }

/-- Python dict assignment `configs[config.id] = config` on the
insertion-ordered dict: replace in place if the key exists, else
append. -/
def insertConfig : List LLMConfig → LLMConfig → List LLMConfig
  | [], c => [c]
  | d :: ds, c => if d.id = c.id then c :: ds else d :: insertConfig ds c

/-- `ConfigManager.add_config`: if the new config is default, clear
every stored default first; then store it; always returns True. -/
def add_config (cs : List LLMConfig) (c : LLMConfig) : Bool × List LLMConfig :=
  let cs1 := if c.is_default then cs.map clearDefault else cs
  (true, insertConfig cs1 c)

/-- `ConfigManager.update_config`: False if the id is absent; if the
update sets `is_default` to a truthy value, clear every stored default
first; then apply the field updates to the addressed config. -/
def update_config (cs : List LLMConfig) (config_id : String) (u : LLMConfigUpdates) :
    Bool × List LLMConfig :=
  if cs.any (fun c => c.id == config_id) then
    let cs1 := if u.is_default = some true then cs.map clearDefault else cs
    (true, cs1.map (fun c => if c.id = config_id then applyUpdates c u else c))
  else (false, cs)

/-- `ConfigManager.get_default_config`: the first config flagged as
default; if none is flagged, the first config; `None` on an empty
store. -/
def get_default_config (cs : List LLMConfig) : Option LLMConfig :=
  match cs.find? (fun c => c.is_default) with
  | some c => some c
  | none => cs.head?

/-- A store-mutating operation of the configuration store. -/
inductive ConfigOp where
  | add (c : LLMConfig)
  | update (config_id : String) (u : LLMConfigUpdates)

/-- Apply one operation to the stored collection. -/
def applyOp (cs : List LLMConfig) : ConfigOp → List LLMConfig
  | ConfigOp.add c => (add_config cs c).2
  | ConfigOp.update i u => (update_config cs i u).2

/-- Apply a sequence of operations to the stored collection. -/
def applyOps (cs : List LLMConfig) (ops : List ConfigOp) : List LLMConfig :=
  ops.foldl applyOp cs

/-- Number of stored configs flagged as default. -/
def countDefaults (cs : List LLMConfig) : Nat :=
  cs.countP (fun c => c.is_default)

/-- The stored ids, in storage order. -/
def ids (cs : List LLMConfig) : List String :=
  cs.map (fun c => c.id)

/-- Demo config A, currently the default. -/
def cfgA : LLMConfig :=
  ⟨"a", "alpha", "sk-aaaa", "https://api.one.test/v1", "gpt-a", true⟩

/-- Demo config B, not the default. -/
def cfgB : LLMConfig :=
  ⟨"b", "beta", "sk-bbbb", "https://api.two.test/v1", "gpt-b", false⟩

/-- Update that flags a config as the default. -/
def updDefault : LLMConfigUpdates :=
  { is_default := some true }

/-- Catalog names are non-empty strings (so the Python truthiness test
on the old active name succeeds for them). -/
theorem inCatalog_ne_empty {a : String} (h : inCatalog a = true) : a ≠ "" := by
  intro he
  subst he
  exact absurd h (by decide)

/-- Reading the key just written in `_model_status`. -/
theorem setStatus_same (f : String → Option ModelStatus) (n : String) (v : ModelStatus) :
    setStatus f n v n = some v := by
  simp [setStatus]

/-- Reading a different key of `_model_status`. -/
theorem setStatus_other (f : String → Option ModelStatus) (n x : String) (v : ModelStatus)
    (h : x ≠ n) : setStatus f n v x = f x := by
  simp [setStatus, h]

/-- When the in-memory entry is neither DOWNLOADING nor LOADING,
`get_model_status` is decided by the disk check and the active name. -/
theorem get_model_status_fallthrough (m : ManagerState) (n : String)
    (hc : inCatalog n = true)
    (h1 : m.model_status n ≠ some ModelStatus.downloading)
    (h2 : m.model_status n ≠ some ModelStatus.loading) :
    get_model_status m n =
      if m.disk n then
        if m.current_model_name = some n then ModelStatus.ready
        else ModelStatus.not_downloaded
      else ModelStatus.not_downloaded := by
  rcases hs : m.model_status n with _ | s
  · simp [get_model_status, hc, hs]
  · cases s
    · simp [get_model_status, hc, hs]
    · exact absurd hs h1
    · simp [get_model_status, hc, hs]
    · exact absurd hs h2
    · simp [get_model_status, hc, hs]

/-- `get_model_status` only looks at the entry's status, the disk check
and the active name. -/
theorem get_model_status_congr (m m' : ManagerState) (n : String)
    (h1 : m'.model_status n = m.model_status n) (h2 : m'.disk n = m.disk n)
    (h3 : m'.current_model_name = m.current_model_name) :
    get_model_status m' n = get_model_status m n := by
  simp [get_model_status, h1, h2, h3]

/-- C1: for every identifier in the catalog, `get_model_status` returns
DOWNLOADING or LOADING directly whenever the in-memory entry holds one
of those two values; otherwise, if the artifact exists on disk it
returns READY exactly when the identifier is the currently active model
and NOT_DOWNLOADED otherwise, and it returns NOT_DOWNLOADED when the
artifact is absent. -/
theorem status_of_catalog_cases (m : ManagerState) (n : String) (hc : inCatalog n = true) :
    (m.model_status n = some ModelStatus.downloading →
        get_model_status m n = ModelStatus.downloading) ∧
    (m.model_status n = some ModelStatus.loading →
        get_model_status m n = ModelStatus.loading) ∧
    (m.model_status n ≠ some ModelStatus.downloading →
      m.model_status n ≠ some ModelStatus.loading →
      (m.disk n = true → m.current_model_name = some n →
          get_model_status m n = ModelStatus.ready) ∧
      (m.disk n = true → m.current_model_name ≠ some n →
          get_model_status m n = ModelStatus.not_downloaded) ∧
      (m.disk n = false → get_model_status m n = ModelStatus.not_downloaded)) := by
  refine ⟨fun h => ?_, fun h => ?_, fun h1 h2 => ?_⟩
  · simp [get_model_status, hc, h]
  · simp [get_model_status, hc, h]
  · rw [get_model_status_fallthrough m n hc h1 h2]
    exact ⟨fun hd hcur => by simp [hd, hcur],
      fun hd hcur => by simp [hd, hcur],
      fun hd => by simp [hd]⟩

/-- Witness for C1: in the demo state the loaded model "tiny" is
reported READY. -/
theorem status_of_catalog_cases_witness :
    get_model_status demoReady "tiny" = ModelStatus.ready :=
  ((status_of_catalog_cases demoReady "tiny" (by decide)).2.2 (by decide) (by decide)).1
    (by decide) (by decide)

/-- C2 counterexample: with the "tiny" artifact on disk, download_model
returns True, not the False the claim states. -/
theorem download_existing_artifact_counterexample :
    demoReady.disk "tiny" = true ∧ inCatalog "tiny" = true ∧
    (download_model demoReady "tiny" false 0).1 = true := by
  decide

/-- C2 as amended: for every catalog identifier whose artifact already
exists on disk, download_model short-circuits and returns True
(reporting the model as already downloaded), without starting any
background download and without changing any state. -/
theorem download_existing_artifact_returns_true (m : ManagerState) (n : String)
    (fetchOk : Bool) (h : Nat) (hc : inCatalog n = true) (hd : m.disk n = true) :
    download_model m n fetchOk h = (true, m) := by
  simp [download_model, download_start, hc, hd]

/-- Witness for the amended C2 at the demo state. -/
theorem download_existing_artifact_returns_true_witness :
    download_model demoReady "tiny" true 3 = (true, demoReady) :=
  download_existing_artifact_returns_true demoReady "tiny" true 3 (by decide) (by decide)

/-- C3: after a failed download of "tiny" on a fresh manager the call
returns False and the entry's internal status is ERROR, yet the status
snapshot carries no failure reason: `get_all_models` leaves
`error_message` at None for every entry of every state (the code only
prints the exception and no other operation ever writes the field), so
the recorded-error-message behaviour the claim describes does not
exist in the code. -/
theorem download_failure_error_message_unrecorded :
    (download_model (init_status (fun _ => false)) "tiny" false 0).1 = false ∧
    (download_model (init_status (fun _ => false)) "tiny" false 0).2.model_status "tiny" =
      some ModelStatus.error ∧
    (∀ m : ManagerState,
      (get_all_models m).all (fun i => i.error_message = none) = true) :=
  ⟨by decide, by decide, fun m => rfl⟩

/-- C5: duplicate downloads of one identifier are rejected.  For a
catalog identifier whose artifact is not on disk: while the entry is
flagged DOWNLOADING any further download call returns False and leaves
the state unchanged (not queued), and an accepted `download_start`
(the single lock-protected check-and-set step) leaves the entry flagged
DOWNLOADING, which is what makes the second call reject. -/
theorem download_single_flight (m : ManagerState) (n : String)
    (hc : inCatalog n = true) (hd : m.disk n = false) :
    (m.model_status n = some ModelStatus.downloading →
      ∀ fetchOk h, download_model m n fetchOk h = (false, m)) ∧
    ((download_start m n).1 = StartResult.accepted →
      (download_start m n).2.model_status n = some ModelStatus.downloading) := by
  constructor
  · intro hs fetchOk h
    simp [download_model, download_start, hc, hd, hs]
  · intro hacc
    by_cases hs : m.model_status n = some ModelStatus.downloading
    · simp [download_start, hc, hd, hs] at hacc
    · simp [download_start, hc, hd, hs, setStatus]

/-- Witness for C5: with a download of "base" in flight, a second
download of "base" returns False and changes nothing; a fresh accepted
start flags "base" as DOWNLOADING. -/
theorem download_single_flight_witness :
    download_model demoDownloading "base" true 2 = (false, demoDownloading) ∧
    (download_start demoReady "base").2.model_status "base" =
      some ModelStatus.downloading :=
  ⟨(download_single_flight demoDownloading "base" (by decide) (by decide)).1 (by decide)
      true 2,
   (download_single_flight demoReady "base" (by decide) (by decide)).2 (by decide)⟩

/-- C6: loading the already active model (non-null handle) is a no-op
returning True: the state, and in particular the handle, is unchanged
and no status changes. -/
theorem load_idempotent_on_active (m : ManagerState) (n : String) (loadOk : Bool)
    (hdl : Nat) (hc : inCatalog n = true) (hname : m.current_model_name = some n)
    (hcm : m.current_model ≠ none) :
    load_model m n loadOk hdl = (true, m) := by
  simp [load_model, hc, hname, hcm]

/-- Witness for C6 at the demo state. -/
theorem load_idempotent_on_active_witness :
    load_model demoReady "tiny" true 2 = (true, demoReady) :=
  load_idempotent_on_active demoReady "tiny" true 2 (by decide) (by decide) (by decide)

/-- C8: for every identifier not in the catalog, `get_model_status`
reports the error status (the code's representation of UnknownModel,
mapped to 404 by the API layer), and download_model and load_model
return False; all three are total functions of the state and none of
them changes any state. -/
theorem unknown_identifier_ops (m : ManagerState) (n : String) (hc : inCatalog n = false) :
    get_model_status m n = ModelStatus.error ∧
    (∀ fetchOk h, download_model m n fetchOk h = (false, m)) ∧
    (∀ loadOk hdl, load_model m n loadOk hdl = (false, m)) := by
  refine ⟨?_, fun fetchOk h => ?_, fun loadOk hdl => ?_⟩
  · simp [get_model_status, hc]
  · simp [download_model, download_start, hc]
  · simp [load_model, hc]

/-- Witness for C8 at the identifier "bogus". -/
theorem unknown_identifier_ops_witness :
    get_model_status demoReady "bogus" = ModelStatus.error ∧
    download_model demoReady "bogus" true 0 = (false, demoReady) ∧
    load_model demoReady "bogus" true 0 = (false, demoReady) :=
  ⟨(unknown_identifier_ops demoReady "bogus" (by decide)).1,
   (unknown_identifier_ops demoReady "bogus" (by decide)).2.1 true 0,
   (unknown_identifier_ops demoReady "bogus" (by decide)).2.2 true 0⟩

/-- C4 counterexample: with "tiny" active (handle 7) and the "medium"
artifact on disk, a failed load of "medium" drops the active handle
(current_model becomes none, against the claim that the handle is not
dropped), and status polling reports "medium" as NOT_DOWNLOADED rather
than Error. -/
theorem load_failure_isolation_counterexample :
    demoTwoDisks.current_model = some 7 ∧
    (load_model demoTwoDisks "medium" false 9).1 = false ∧
    (load_model demoTwoDisks "medium" false 9).2.current_model = none ∧
    get_model_status (load_model demoTwoDisks "medium" false 9).2 "medium" =
      ModelStatus.not_downloaded := by
  decide

/-- C4 as amended: for distinct catalog identifiers A and B with A
active and both artifacts on disk, a failed load(B) returns False, sets
B's internal status field to ERROR (which status polling reports as
NOT_DOWNLOADED, since ERROR does not take priority over the disk
check), keeps A as the nominally active identifier with
status_of(A) = READY, but drops the active handle (current_model
becomes none) and does not restore it. -/
theorem load_failure_isolation_amended (m : ManagerState) (a b : String) (h hdl : Nat)
    (hca : inCatalog a = true) (hcb : inCatalog b = true) (hab : a ≠ b)
    (hcur : m.current_model = some h) (hname : m.current_model_name = some a)
    (hda : m.disk a = true) (hdb : m.disk b = true)
    (ha1 : m.model_status a ≠ some ModelStatus.downloading)
    (ha2 : m.model_status a ≠ some ModelStatus.loading) :
    (load_model m b false hdl).1 = false ∧
    (load_model m b false hdl).2.current_model = none ∧
    (load_model m b false hdl).2.current_model_name = some a ∧
    (load_model m b false hdl).2.model_status b = some ModelStatus.error ∧
    get_model_status (load_model m b false hdl).2 a = ModelStatus.ready ∧
    get_model_status (load_model m b false hdl).2 b = ModelStatus.not_downloaded := by
  have hnb : m.current_model_name ≠ some b := by
    rw [hname]
    intro hb
    exact hab (Option.some.inj hb)
  have hcm : m.current_model ≠ none := by
    rw [hcur]
    exact Option.some_ne_none h
  have hstat : get_model_status (load_model m b false hdl).2 a = get_model_status m a := by
    apply get_model_status_congr
    · simp [load_model, hcb, hnb, hdb, hcm, setStatus, hab]
    · simp [load_model, hcb, hnb, hdb, hcm]
    · simp [load_model, hcb, hnb, hdb, hcm]
  refine ⟨?_, ?_, ?_, ?_, ?_, ?_⟩
  · simp [load_model, hcb, hnb, hdb, hcm]
  · simp [load_model, hcb, hnb, hdb, hcm]
  · simp [load_model, hcb, hnb, hdb, hcm, hname, hab]
  · simp [load_model, hcb, hnb, hdb, hcm, setStatus]
  · rw [hstat, get_model_status_fallthrough m a hca ha1 ha2]
    simp [hda, hname]
  · simp [load_model, hcb, hnb, hdb, hcm, get_model_status, setStatus, hname,
      fun h' : a = b => hab h']

/-- Witness for the amended C4 at the demo state. -/
theorem load_failure_isolation_amended_witness :
    (load_model demoTwoDisks "medium" false 9).2.current_model_name = some "tiny" ∧
    (load_model demoTwoDisks "medium" false 9).2.model_status "medium" =
      some ModelStatus.error ∧
    get_model_status (load_model demoTwoDisks "medium" false 9).2 "tiny" =
      ModelStatus.ready :=
  ⟨(load_failure_isolation_amended demoTwoDisks "tiny" "medium" 7 9 (by decide) (by decide)
      (by decide) rfl rfl (by decide) (by decide) (by decide) (by decide)).2.2.1,
   (load_failure_isolation_amended demoTwoDisks "tiny" "medium" 7 9 (by decide) (by decide)
      (by decide) rfl rfl (by decide) (by decide) (by decide) (by decide)).2.2.2.1,
   (load_failure_isolation_amended demoTwoDisks "tiny" "medium" 7 9 (by decide) (by decide)
      (by decide) rfl rfl (by decide) (by decide) (by decide) (by decide)).2.2.2.2.1⟩

/-- C7: unload_model never fails.  If a handle is held (with the active
catalog identifier recorded), it drops the handle, clears the active
name so that `get_current_model` returns none, resets the previously
active identifier's status to NOT_DOWNLOADED, and leaves the on-disk
artifacts untouched; if no handle is held it is the identity on the
state. -/
theorem unload_total_spec (m : ManagerState) :
    (∀ h a, m.current_model = some h → m.current_model_name = some a →
        inCatalog a = true →
        get_current_model (unload_model m) = none ∧
        (unload_model m).current_model = none ∧
        (unload_model m).model_status a = some ModelStatus.not_downloaded ∧
        (∀ x, check_model_downloaded (unload_model m) x = check_model_downloaded m x)) ∧
    (m.current_model = none → unload_model m = m) := by
  constructor
  · intro h a hcm hname hca
    have hne := inCatalog_ne_empty hca
    simp [unload_model, get_current_model, check_model_downloaded, hcm, hname, hne,
      setStatus]
  · intro hcm
    simp [unload_model, hcm]

/-- Witness for C7 at the demo state. -/
theorem unload_total_spec_witness :
    get_current_model (unload_model demoReady) = none ∧
    (unload_model demoReady).model_status "tiny" = some ModelStatus.not_downloaded :=
  ⟨((unload_total_spec demoReady).1 1 "tiny" rfl rfl (by decide)).1,
   ((unload_total_spec demoReady).1 1 "tiny" rfl rfl (by decide)).2.2.1⟩

/-- ids of an empty store. -/
theorem ids_nil : ids [] = [] := rfl

/-- ids of a non-empty store. -/
theorem ids_cons (c : LLMConfig) (cs : List LLMConfig) : ids (c :: cs) = c.id :: ids cs :=
  rfl

/-- countDefaults of an empty store. -/
theorem countDefaults_nil : countDefaults [] = 0 := rfl

/-- countDefaults of a non-empty store. -/
theorem countDefaults_cons (c : LLMConfig) (cs : List LLMConfig) :
    countDefaults (c :: cs) = (if c.is_default then 1 else 0) + countDefaults cs := by
  cases h : c.is_default <;> simp [countDefaults, List.countP_cons, h, Nat.add_comm]

/-- Clearing every default leaves no default. -/
theorem countDefaults_map_clear (cs : List LLMConfig) :
    countDefaults (cs.map clearDefault) = 0 := by
  induction cs with
  | nil => rfl
  | cons c cs ih => simp [countDefaults_cons, clearDefault, ih]

/-- Clearing defaults does not change the stored ids. -/
theorem ids_map_clear (cs : List LLMConfig) : ids (cs.map clearDefault) = ids cs := by
  induction cs with
  | nil => rfl
  | cons c cs ih => simp [ids_cons, clearDefault, ih]

/-- Field updates never change a config's id. -/
theorem applyUpdates_id (c : LLMConfig) (u : LLMConfigUpdates) :
    (applyUpdates c u).id = c.id := rfl

/-- The per-id rewrite of update_config does not change the stored ids. -/
theorem ids_update_map (cs : List LLMConfig) (i : String) (u : LLMConfigUpdates) :
    ids (cs.map (fun c => if c.id = i then applyUpdates c u else c)) = ids cs := by
  induction cs with
  | nil => rfl
  | cons d ds ih =>
    rw [List.map_cons, ids_cons, ids_cons, ih]
    by_cases h : d.id = i
    · rw [if_pos h, applyUpdates_id]
    · rw [if_neg h]

/-- Storing a config adds at most one default. -/
theorem countDefaults_insertConfig_le_one (cs : List LLMConfig) (c : LLMConfig) :
    countDefaults (insertConfig cs c) ≤ countDefaults cs + 1 := by
  induction cs with
  | nil =>
    cases hc : c.is_default <;> simp [insertConfig, countDefaults_cons, countDefaults_nil, hc]
  | cons d ds ih =>
    by_cases h : d.id = c.id
    · cases hc : c.is_default <;> cases hd : d.is_default <;>
        simp [insertConfig, h, countDefaults_cons, hc, hd] <;> omega
    · simp only [insertConfig, if_neg h, countDefaults_cons]
      omega

/-- Storing a non-default config adds no default. -/
theorem countDefaults_insertConfig_nondefault (cs : List LLMConfig) (c : LLMConfig)
    (hc : c.is_default = false) : countDefaults (insertConfig cs c) ≤ countDefaults cs := by
  induction cs with
  | nil => simp [insertConfig, countDefaults_cons, countDefaults_nil, hc]
  | cons d ds ih =>
    by_cases h : d.id = c.id
    · cases hd : d.is_default <;>
        simp [insertConfig, h, countDefaults_cons, hc, hd]
    · simp only [insertConfig, if_neg h, countDefaults_cons]
      omega

/-- Every id present after a store is either an old id or the stored
one. -/
theorem ids_insertConfig_subset (cs : List LLMConfig) (c : LLMConfig) (x : String) :
    x ∈ ids (insertConfig cs c) → x ∈ ids cs ∨ x = c.id := by
  induction cs with
  | nil =>
    intro hx
    right
    simpa [insertConfig, ids_cons, ids_nil] using hx
  | cons d ds ih =>
    intro hx
    by_cases h : d.id = c.id
    · simp only [insertConfig, if_pos h, ids_cons] at hx
      rcases List.mem_cons.mp hx with hx | hx
      · exact Or.inr hx
      · exact Or.inl (List.mem_cons.mpr (Or.inr hx))
    · simp only [insertConfig, if_neg h, ids_cons] at hx
      rcases List.mem_cons.mp hx with hx | hx
      · exact Or.inl (List.mem_cons.mpr (Or.inl hx))
      · rcases ih hx with h2 | h2
        · exact Or.inl (List.mem_cons.mpr (Or.inr h2))
        · exact Or.inr h2

/-- Storing keeps the ids distinct. -/
theorem nodup_ids_insertConfig (cs : List LLMConfig) (c : LLMConfig)
    (h : (ids cs).Nodup) : (ids (insertConfig cs c)).Nodup := by
  induction cs with
  | nil => simp [insertConfig, ids_cons, ids_nil]
  | cons d ds ih =>
    rw [ids_cons, List.nodup_cons] at h
    by_cases hdc : d.id = c.id
    · simp only [insertConfig, if_pos hdc, ids_cons, List.nodup_cons]
      exact ⟨hdc ▸ h.1, h.2⟩
    · simp only [insertConfig, if_neg hdc, ids_cons, List.nodup_cons]
      refine ⟨fun hmem => ?_, ih h.2⟩
      rcases ids_insertConfig_subset ds c d.id hmem with h2 | h2
      · exact h.1 h2
      · exact hdc h2

/-- A pointwise-dominated rewrite cannot increase the default count. -/
theorem countDefaults_map_le (f : LLMConfig → LLMConfig) (cs : List LLMConfig)
    (hf : ∀ c ∈ cs, (f c).is_default = true → c.is_default = true) :
    countDefaults (cs.map f) ≤ countDefaults cs := by
  induction cs with
  | nil => exact Nat.le_refl 0
  | cons d ds ih =>
    have ih' := ih (fun c hc hdef => hf c (List.mem_cons_of_mem d hc) hdef)
    cases h1 : (f d).is_default with
    | false =>
      cases h2 : d.is_default <;> simp [countDefaults_cons, h1, h2] <;> omega
    | true =>
      have h2 : d.is_default = true := hf d (List.mem_cons_self d ds) h1
      simp only [List.map_cons, countDefaults_cons, h1, h2, if_true]
      omega

/-- With distinct ids, at most one stored config matches a given id. -/
theorem countP_id_le_one (cs : List LLMConfig) (i : String)
    (h : (ids cs).Nodup) : cs.countP (fun c => c.id == i) ≤ 1 := by
  induction cs with
  | nil => simp
  | cons d ds ih =>
    rw [ids_cons, List.nodup_cons] at h
    by_cases hdi : d.id = i
    · have hz : ds.countP (fun c => c.id == i) = 0 := by
        rw [List.countP_eq_zero]
        intro c hc
        simp only [beq_iff_eq]
        intro hci
        have hmem : c.id ∈ ids ds := List.mem_map_of_mem (fun c => c.id) hc
        rw [hci, ← hdi] at hmem
        exact h.1 hmem
      simp [List.countP_cons, hdi, hz]
    · simpa [List.countP_cons, hdi] using ih h.2

/-- With distinct ids, a stored id matches exactly one config. -/
theorem countP_id_eq_one (cs : List LLMConfig) (i : String)
    (h : (ids cs).Nodup) (hmem : cs.any (fun c => c.id == i) = true) :
    cs.countP (fun c => c.id == i) = 1 := by
  have hle := countP_id_le_one cs i h
  have hpos : 0 < cs.countP (fun c => c.id == i) := by
    rw [List.countP_pos_iff]
    rcases List.any_eq_true.mp hmem with ⟨c, hc, hci⟩
    exact ⟨c, hc, hci⟩
  omega

/-- After clearing everything and flagging the configs with the given
id, the default count equals the number of matching configs. -/
theorem update_count_core (cs : List LLMConfig) (i : String) (u : LLMConfigUpdates)
    (hdef : u.is_default = some true) :
    countDefaults ((cs.map clearDefault).map
        (fun c => if c.id = i then applyUpdates c u else c)) =
      cs.countP (fun c => c.id == i) := by
  induction cs with
  | nil => rfl
  | cons d ds ih =>
    rw [List.map_cons, List.map_cons, countDefaults_cons, List.countP_cons, ih]
    by_cases h : d.id = i
    · have hid : (clearDefault d).id = i := h
      have htrue : (applyUpdates (clearDefault d) u).is_default = true := by
        simp [applyUpdates, hdef]
      rw [if_pos hid, htrue]
      simp [h]
      omega
    · have hid : ¬(clearDefault d).id = i := h
      have hfalse : (clearDefault d).is_default = false := rfl
      rw [if_neg hid, hfalse]
      simp [h]

/-- add_config keeps the stored ids distinct. -/
theorem add_config_nodup (cs : List LLMConfig) (c : LLMConfig)
    (h : (ids cs).Nodup) : (ids (add_config cs c).2).Nodup := by
  cases hc : c.is_default
  · simpa only [add_config, hc, if_neg Bool.false_ne_true] using nodup_ids_insertConfig cs c h
  · have he : (add_config cs c).2 = insertConfig (cs.map clearDefault) c := by
      simp [add_config, hc]
    rw [he]
    exact nodup_ids_insertConfig _ c (by rw [ids_map_clear]; exact h)

/-- add_config keeps the at-most-one-default invariant. -/
theorem add_config_count_le (cs : List LLMConfig) (c : LLMConfig)
    (h : countDefaults cs ≤ 1) : countDefaults (add_config cs c).2 ≤ 1 := by
  cases hc : c.is_default
  · simp only [add_config, hc, if_neg Bool.false_ne_true]
    exact le_trans (countDefaults_insertConfig_nondefault cs c hc) h
  · have he : (add_config cs c).2 = insertConfig (cs.map clearDefault) c := by
      simp [add_config, hc]
    rw [he]
    have := countDefaults_insertConfig_le_one (cs.map clearDefault) c
    rw [countDefaults_map_clear] at this
    omega

/-- update_config keeps the stored ids distinct. -/
theorem update_config_nodup (cs : List LLMConfig) (i : String) (u : LLMConfigUpdates)
    (h : (ids cs).Nodup) : (ids (update_config cs i u).2).Nodup := by
  by_cases hmem : cs.any (fun c => c.id == i) = true
  · by_cases hdef : u.is_default = some true
    · simp only [update_config, hmem, if_pos, hdef, if_true]
      rw [ids_update_map, ids_map_clear]
      exact h
    · simp only [update_config, hmem, if_pos, if_neg hdef]
      rw [ids_update_map]
      exact h
  · simpa [update_config, hmem] using h

/-- update_config keeps the at-most-one-default invariant. -/
theorem update_config_count_le (cs : List LLMConfig) (i : String) (u : LLMConfigUpdates)
    (hnd : (ids cs).Nodup) (h : countDefaults cs ≤ 1) :
    countDefaults (update_config cs i u).2 ≤ 1 := by
  by_cases hmem : cs.any (fun c => c.id == i) = true
  · by_cases hdef : u.is_default = some true
    · simp only [update_config, hmem, if_pos, hdef, if_true]
      rw [update_count_core cs i u hdef]
      exact countP_id_le_one cs i hnd
    · simp only [update_config, hmem, if_pos, if_neg hdef]
      refine le_trans (countDefaults_map_le _ cs ?_) h
      intro c hc hgd
      by_cases hci : c.id = i
      · rw [if_pos hci] at hgd
        simp only [applyUpdates] at hgd
        rcases hu : u.is_default with _ | b
        · rw [hu] at hgd
          exact hgd
        · rw [hu] at hgd
          simp only [Option.getD_some] at hgd
          rw [hgd] at hu
          exact absurd hu hdef
      · rw [if_neg hci] at hgd
        exact hgd
  · simpa [update_config, hmem] using h

/-- The store invariant: distinct ids and at most one default. -/
def StoreWF (cs : List LLMConfig) : Prop :=
  (ids cs).Nodup ∧ countDefaults cs ≤ 1

/-- Each store operation preserves the invariant. -/
theorem applyOp_wf (cs : List LLMConfig) (op : ConfigOp) (h : StoreWF cs) :
    StoreWF (applyOp cs op) := by
  cases op with
  | add c => exact ⟨add_config_nodup cs c h.1, add_config_count_le cs c h.2⟩
  | update i u =>
    exact ⟨update_config_nodup cs i u h.1, update_config_count_le cs i u h.1 h.2⟩

/-- Sequences of store operations preserve the invariant. -/
theorem applyOps_wf (ops : List ConfigOp) (cs : List LLMConfig) (h : StoreWF cs) :
    StoreWF (applyOps cs ops) := by
  induction ops generalizing cs with
  | nil => exact h
  | cons op ops ih => exact ih _ (applyOp_wf cs op h)

/-- C9: starting from any store with distinct ids and at most one
default (in particular the empty store), every sequence of add_config
and update_config operations leaves at most one stored config with
is_default = true; and setting is_default = true on a stored config
while others may be default leaves exactly one default, every config
with a different id having its flag cleared. -/
theorem config_store_at_most_one_default :
    (∀ cs ops, (ids cs).Nodup → countDefaults cs ≤ 1 →
        countDefaults (applyOps cs ops) ≤ 1) ∧
    (∀ cs i u, (ids cs).Nodup → cs.any (fun c => c.id == i) = true →
        u.is_default = some true →
        countDefaults (update_config cs i u).2 = 1 ∧
        ∀ c ∈ (update_config cs i u).2, c.id ≠ i → c.is_default = false) := by
  constructor
  · intro cs ops hnd hcnt
    exact (applyOps_wf ops cs ⟨hnd, hcnt⟩).2
  · intro cs i u hnd hmem hdef
    constructor
    · simp only [update_config, hmem, if_pos, hdef, if_true]
      rw [update_count_core cs i u hdef]
      exact countP_id_eq_one cs i hnd hmem
    · intro c hc hci
      simp only [update_config, hmem, if_pos, hdef, if_true] at hc
      rcases List.mem_map.mp hc with ⟨c1, hc1, hgc⟩
      by_cases h1 : c1.id = i
      · exfalso
        apply hci
        rw [← hgc]
        simp [h1, applyUpdates]
      · rw [← hgc]
        simp only [if_neg h1]
        rcases List.mem_map.mp hc1 with ⟨c0, _, hcc⟩
        rw [← hcc]
        rfl

/-- Witness for C9: adding A (default) then B (default) to the empty
store leaves one default; flagging B default in a store where A is
default leaves exactly one default. -/
theorem config_store_at_most_one_default_witness :
    countDefaults (applyOps []
      [ConfigOp.add cfgA, ConfigOp.add { cfgB with is_default := true }]) ≤ 1 ∧
    countDefaults (update_config [cfgA, cfgB] "b" updDefault).2 = 1 :=
  ⟨config_store_at_most_one_default.1 [] _ (by decide) (by decide),
   (config_store_at_most_one_default.2 [cfgA, cfgB] "b" updDefault (by decide) (by decide)
      (by decide)).1⟩

/-- C10: when no stored config is flagged default, get_default_config
falls back to the first config in storage order (never none on a
non-empty store); it returns none exactly when the store is empty. -/
theorem get_default_config_fallback (cs : List LLMConfig) :
    ((∀ c ∈ cs, c.is_default = false) → cs ≠ [] →
        get_default_config cs = cs.head? ∧ get_default_config cs ≠ none) ∧
    (get_default_config cs = none ↔ cs = []) := by
  have hmatch : ∀ (h : cs.find? (fun c => c.is_default) = none),
      get_default_config cs = cs.head? := by
    intro h
    simp [get_default_config, h]
  constructor
  · intro hno hne
    have hfind : cs.find? (fun c => c.is_default) = none := by
      rw [List.find?_eq_none]
      intro c hc
      simp [hno c hc]
    refine ⟨hmatch hfind, ?_⟩
    rw [hmatch hfind]
    cases cs with
    | nil => exact absurd rfl hne
    | cons d ds => simp
  · constructor
    · intro hnone
      cases hf : cs.find? (fun c => c.is_default) with
      | some c => simp [get_default_config, hf] at hnone
      | none =>
        rw [hmatch hf] at hnone
        cases cs with
        | nil => rfl
        | cons d ds => simp at hnone
    · intro h
      subst h
      rfl

/-- Witness for C10: a two-config store with no default returns the
first config. -/
theorem get_default_config_fallback_witness :
    get_default_config [{ cfgA with is_default := false }, cfgB] =
      some { cfgA with is_default := false } :=
  (((get_default_config_fallback [{ cfgA with is_default := false }, cfgB]).1
      (by decide) (by decide)).1).trans rfl

end ASREngine
